import Mathlib

/-
Verification of the Bresser Weather Center 5-in-1 packet decoder
(src/devices/bresser_5in1.c, function bresser_6in1_callback).

The decoder is embedded shallowly: the bit capture is a list of rows of
booleans, the extracted message buffer is a list of natural numbers read
through a uint8 view, machine floats are modelled as exact rationals, and
the result of one decode call is an inductive value carrying either the
produced measurement record or the failure kind.
-/

namespace Bresser5in1

/-- Bits of one byte, most significant bit first. -/
def byteBits (b : ℕ) : List Bool :=
  (List.range 8).map (fun k => Nat.testBit b (7 - k))

/-- A byte sequence as a bit sequence, most significant bit of each byte first. -/
def bytesToBits (bs : List ℕ) : List Bool :=
  (bs.map byteBits).flatten

/-- Value of a bit sequence read most-significant-first. -/
def bitsToByte (bits : List Bool) : ℕ :=
  bits.foldl (fun a b => 2 * a + (if b then 1 else 0)) 0

/-- Modelled from the spec: the bit-capture collaborator (bitbuffer_t, not under
src/) is one or more rows of bits; num_rows is the number of rows and
bits_per_row the length of each. -/
structure Bitbuffer where
  rows : List (List Bool)
deriving DecidableEq

/-- First row of the capture (the decoder only ever uses row 0). -/
def row0 (bb : Bitbuffer) : List Bool := bb.rows.headD []

/-- The preamble pattern searched for: aa aa 2d d4 (source line 49). -/
def preamble_pattern : List ℕ := [0xaa, 0xaa, 0x2d, 0xd4]

/-- Modelled from the spec: the bit-buffer pattern-search collaborator
(bitbuffer_search, not under src/): returns the least bit offset at which the
whole pattern occurs in the row, or the row's bit length when the pattern
does not occur. -/
def bitbuffer_search (row pat : List Bool) : ℕ :=
  (((List.range (row.length + 1)).filter
    (fun p => (row.drop p).take pat.length == pat)).headD row.length)

/-- Modelled from the spec: the byte-extraction-at-bit-offset collaborator
(bitbuffer_extract_bytes, not under src/): copies len bits starting at bit
offset pos into bytes, most significant bit first. -/
def bitbuffer_extract_bytes (row : List Bool) (pos len : ℕ) : List ℕ :=
  (List.range ((len + 7) / 8)).map (fun i => bitsToByte ((row.drop (pos + 8 * i)).take 8))

/-- Read msg[i] as a uint8_t value (the buffer holds bytes, so the value is
reduced mod 256). -/
def byte (msg : List ℕ) (i : ℕ) : ℕ := msg.getD i 0 % 256

/-- High nibble of a byte: (b & 0xf0) >> 4. -/
def hiNib (b : ℕ) : ℕ := b / 16

/-- Low nibble of a byte: b & 0x0f. -/
def loNib (b : ℕ) : ℕ := b % 16

/-- Checksum of source line 103: sum of (0x100 - msg[i]) for i = 2..17,
masked to 8 bits. -/
def chksum (msg : List ℕ) : ℕ :=
  ((0x100 - byte msg 2) + (0x100 - byte msg 3) + (0x100 - byte msg 4) +
   (0x100 - byte msg 5) + (0x100 - byte msg 6) + (0x100 - byte msg 7) +
   (0x100 - byte msg 8) + (0x100 - byte msg 9) + (0x100 - byte msg 10) +
   (0x100 - byte msg 11) + (0x100 - byte msg 12) + (0x100 - byte msg 13) +
   (0x100 - byte msg 14) + (0x100 - byte msg 15) + (0x100 - byte msg 16) +
   (0x100 - byte msg 17)) % 256

/-- Rain raw value of source line 96: four inverted BCD digits from the
nibbles of msg[13] and msg[14]. -/
def rain_raw (msg : List ℕ) : ℕ :=
  (0x0f - hiNib (byte msg 13)) * 1000 + (0x0f - loNib (byte msg 13)) * 100 +
  (0x0f - hiNib (byte msg 14)) * 10 + (0x0f - loNib (byte msg 14))

/-- Rain in mm (source lines 92-99): computed only when msg[12] == 0xff,
otherwise the initial value 0 is kept. -/
def rain (msg : List ℕ) : ℚ :=
  if byte msg 12 = 0xff then (rain_raw msg : ℚ) * (1/10) else 0

/-- Temperature raw value of source line 111. -/
def temp_raw (msg : List ℕ) : ℕ :=
  hiNib (byte msg 12) * 100 + loNib (byte msg 12) * 10 + hiNib (byte msg 13)

/-- Temperature in Celsius (source lines 112-115): temp_raw * 0.1, and when
that exceeds 60 the value temp_raw * 0.1 - 100 instead. -/
def temperature (msg : List ℕ) : ℚ :=
  if (temp_raw msg : ℚ) * (1/10) > 60
  then (temp_raw msg : ℚ) * (1/10) - 100
  else (temp_raw msg : ℚ) * (1/10)

/-- Humidity of source line 117. -/
def humidity (msg : List ℕ) : ℕ :=
  loNib (byte msg 14) + hiNib (byte msg 14) * 10

/-- Wind direction in degrees of source line 119. -/
def wind_direction_deg (msg : List ℕ) : ℚ :=
  ((hiNib (byte msg 10) * 100 + loNib (byte msg 10) * 10 + hiNib (byte msg 11) : ℕ) : ℚ)

/-- Gust raw value of source line 120. -/
def gust_raw (msg : List ℕ) : ℕ :=
  (0xff - byte msg 7) * 10 + (0x0f - hiNib (byte msg 8))

/-- Wind gust in km/h of source line 121: gust_raw * 0.1 * 3.6. -/
def wind_gust (msg : List ℕ) : ℚ :=
  (gust_raw msg : ℚ) * (1/10) * (36/10)

/-- Wind average raw value of source line 123 (note the C expression
parses as ((0xff - msg[9]) * 10 + 0x0f) - (msg[8] & 0x0f)). -/
def wind_raw (msg : List ℕ) : ℕ :=
  (0xff - byte msg 9) * 10 + 0x0f - loNib (byte msg 8)

/-- Wind average speed in km/h of source line 124. -/
def wind_avg (msg : List ℕ) : ℚ :=
  (wind_raw msg : ℚ) * (1/10) * (36/10)

/-- The rain-variant output record (fields of the data_make call at source
lines 128-135). -/
structure RainRecord where
  model : String
  wind_gust : ℚ
  wind_speed : ℚ
  wind_dir_deg : ℚ
  rain_mm : ℚ
  mic : String
deriving DecidableEq

/-- The weather-variant output record (fields of the data_make call at source
lines 139-147). -/
structure WeatherRecord where
  model : String
  temperature_C : ℚ
  humidity : ℕ
  wind_gust : ℚ
  wind_speed : ℚ
  wind_dir_deg : ℚ
  mic : String
deriving DecidableEq

/-- A delivered measurement record: one of the two variants. -/
inductive Record where
  | rain : RainRecord → Record
  | weather : WeatherRecord → Record
deriving DecidableEq

/-- Result of one decode call: success carrying the single delivered record,
or one of the three failure kinds of the source. -/
inductive DecodeResult where
  | ok : Record → DecodeResult
  | abortEarly : DecodeResult
  | abortLength : DecodeResult
  | fail : DecodeResult
deriving DecidableEq

/-- Modelled from the spec: decoder.h (not under src/) defines the abort
codes; the spec requires two distinct negative codes, the early/shape one
first. -/
def DECODE_ABORT_EARLY : ℤ := -2

/-- Modelled from the spec: decoder.h (not under src/) defines the abort
codes; the length/sync abort code is a second, different negative value. -/
def DECODE_ABORT_LENGTH : ℤ := -4

/-- The integer value the C function returns for each result. -/
def retCode : DecodeResult → ℤ
  | .ok _ => 1
  | .abortEarly => DECODE_ABORT_EARLY
  | .abortLength => DECODE_ABORT_LENGTH
  | .fail => 0

/-- The record handed to decoder_output_data, when any. -/
def outputOf : DecodeResult → Option Record
  | .ok r => some r
  | _ => none

/-- The rain-variant record built at source lines 128-135. -/
def rainRecord (msg : List ℕ) : RainRecord :=
  { model := "Bresser-5in1"
    wind_gust := wind_gust msg
    wind_speed := wind_avg msg
    wind_dir_deg := wind_direction_deg msg
    rain_mm := rain msg
    mic := "CHECKSUM" }

/-- The weather-variant record built at source lines 139-147. -/
def weatherRecord (msg : List ℕ) : WeatherRecord :=
  { model := "Bresser-5in1"
    temperature_C := temperature msg
    humidity := humidity msg
    wind_gust := wind_gust msg
    wind_speed := wind_avg msg
    wind_dir_deg := wind_direction_deg msg
    mic := "CHECKSUM" }

/-- Decode of the extracted message buffer: the part of
bresser_6in1_callback after bitbuffer_extract_bytes (source lines 88-151):
checksum gate, then variant dispatch on msg[12]. -/
def decodeMsg (msg : List ℕ) : DecodeResult :=
  if chksum msg ≠ 0x01 then .fail
  else if byte msg 12 = 0xff then .ok (.rain (rainRecord msg))
  else .ok (.weather (weatherRecord msg))

/-- Shape gate of source lines 59-66: not exactly one row, or row 0 shorter
than 160 bits or longer than 230 bits. -/
def shapeRejected (bb : Bitbuffer) : Prop :=
  bb.rows.length ≠ 1 ∨ (row0 bb).length < 160 ∨ 230 < (row0 bb).length

instance instDecShapeRejected (bb : Bitbuffer) : Decidable (shapeRejected bb) := by
  unfold shapeRejected
  infer_instance

/-- Bit position returned by the preamble search (source lines 67-68). -/
def syncPos (bb : Bitbuffer) : ℕ :=
  bitbuffer_search (row0 bb) (bytesToBits preamble_pattern)

/-- The preamble was found (negation of the test at source line 70). -/
def syncFound (bb : Bitbuffer) : Prop :=
  syncPos bb < (row0 bb).length

instance instDecSyncFound (bb : Bitbuffer) : Decidable (syncFound bb) := by
  unfold syncFound
  infer_instance

/-- Number of bits remaining after the preamble (source lines 74-75). -/
def postLen (bb : Bitbuffer) : ℕ :=
  (row0 bb).length - (syncPos bb + 32)

/-- The message buffer extracted at source line 86, with the truncation of
source line 84 (MIN(len, sizeof msg * 8) = MIN(len, 160)). -/
def extractedMsg (bb : Bitbuffer) : List ℕ :=
  bitbuffer_extract_bytes (row0 bb) (syncPos bb + 32) (min (postLen bb) 160)

/-- The full decode entry point bresser_6in1_callback (source lines 47-151). -/
def bresser_6in1_callback (bb : Bitbuffer) : DecodeResult :=
  if shapeRejected bb then .abortEarly
  else if ¬ syncFound bb then .abortLength
  else if postLen bb < 144 then .abortLength
  else decodeMsg (extractedMsg bb)

/-- A buffer is accepted when decode of it proceeds to produce a measurement. -/
def accepts (msg : List ℕ) : Bool := (outputOf (decodeMsg msg)).isSome

/-- Written from the spec's words for comparison with the source: the
checksum as claim C1 states it, the sum of (0x100 - b) over the 14-byte
span at indices 2 through 15 inclusive, masked to 8 bits. -/
def specChksum14 (msg : List ℕ) : ℕ :=
  ((0x100 - byte msg 2) + (0x100 - byte msg 3) + (0x100 - byte msg 4) +
   (0x100 - byte msg 5) + (0x100 - byte msg 6) + (0x100 - byte msg 7) +
   (0x100 - byte msg 8) + (0x100 - byte msg 9) + (0x100 - byte msg 10) +
   (0x100 - byte msg 11) + (0x100 - byte msg 12) + (0x100 - byte msg 13) +
   (0x100 - byte msg 14) + (0x100 - byte msg 15)) % 256

set_option maxRecDepth 100000

/-- Acceptance as a decision on the checksum alone. -/
theorem accepts_eq_decide (msg : List ℕ) : accepts msg = decide (chksum msg = 1) := by
  unfold accepts decodeMsg
  split_ifs with h1 h2 <;> simp [outputOf] <;> omega

/-- On a passing checksum and the rain marker, decode emits the rain record. -/
theorem decodeMsg_ok_rain {msg : List ℕ} (h1 : chksum msg = 1) (h2 : byte msg 12 = 0xff) :
    decodeMsg msg = .ok (.rain (rainRecord msg)) := by
  unfold decodeMsg
  simp [h1, h2]

/-- On a passing checksum and a non-rain marker, decode emits the weather record. -/
theorem decodeMsg_ok_weather {msg : List ℕ} (h1 : chksum msg = 1) (h2 : byte msg 12 ≠ 0xff) :
    decodeMsg msg = .ok (.weather (weatherRecord msg)) := by
  unfold decodeMsg
  simp [h1, h2]

/-- A failing checksum yields the generic failure result. -/
theorem decodeMsg_fail_iff (msg : List ℕ) : decodeMsg msg = .fail ↔ chksum msg ≠ 1 := by
  unfold decodeMsg
  split_ifs with h1 h2 <;> simp [h1]

/-- Inversion: a successful message decode pins down the checksum and the
emitted record. -/
theorem decodeMsg_ok_inv {msg : List ℕ} {r : Record} (h : decodeMsg msg = .ok r) :
    chksum msg = 1 ∧
      ((byte msg 12 = 0xff ∧ r = .rain (rainRecord msg)) ∨
       (byte msg 12 ≠ 0xff ∧ r = .weather (weatherRecord msg))) := by
  unfold decodeMsg at h
  split_ifs at h with h1 h2
  · simp only [DecodeResult.ok.injEq] at h
    exact ⟨not_not.mp h1, Or.inl ⟨h2, h.symm⟩⟩
  · simp only [DecodeResult.ok.injEq] at h
    exact ⟨not_not.mp h1, Or.inr ⟨h2, h.symm⟩⟩

/-- The message decode never returns either abort kind. -/
theorem decodeMsg_ne_aborts (msg : List ℕ) :
    decodeMsg msg ≠ .abortEarly ∧ decodeMsg msg ≠ .abortLength := by
  unfold decodeMsg
  split_ifs <;> simp

/-- Return value 1 from the message decode characterizes a passing checksum. -/
theorem retCode_decodeMsg_one_iff (msg : List ℕ) :
    retCode (decodeMsg msg) = 1 ↔ chksum msg = 1 := by
  unfold decodeMsg
  split_ifs with h1 h2 <;>
    simp [retCode, DECODE_ABORT_EARLY, DECODE_ABORT_LENGTH] <;> omega

/-- Nibbles of a byte value are below 16. -/
theorem nib_lt (b : ℕ) (hb : b < 256) : hiNib b < 16 ∧ loNib b < 16 :=
  ⟨(Nat.div_lt_iff_lt_mul (by norm_num)).mpr hb, Nat.mod_lt _ (by norm_num)⟩

/-- Every byte read through the uint8 view is below 256. -/
theorem byte_lt (msg : List ℕ) (i : ℕ) : byte msg i < 256 :=
  Nat.mod_lt _ (by norm_num)

/-- Bytes past the guard range never change the message decode. -/
theorem decodeMsg_congr {msg msg' : List ℕ}
    (h : ∀ i, i < 18 → byte msg i = byte msg' i) :
    decodeMsg msg = decodeMsg msg' := by
  have hc : chksum msg = chksum msg' := by
    unfold chksum
    rw [h 2 (by norm_num), h 3 (by norm_num), h 4 (by norm_num), h 5 (by norm_num),
      h 6 (by norm_num), h 7 (by norm_num), h 8 (by norm_num), h 9 (by norm_num),
      h 10 (by norm_num), h 11 (by norm_num), h 12 (by norm_num), h 13 (by norm_num),
      h 14 (by norm_num), h 15 (by norm_num), h 16 (by norm_num), h 17 (by norm_num)]
  unfold decodeMsg rainRecord weatherRecord rain rain_raw temperature temp_raw humidity
    wind_direction_deg wind_gust gust_raw wind_avg wind_raw
  rw [hc, h 7 (by norm_num), h 8 (by norm_num), h 9 (by norm_num), h 10 (by norm_num),
    h 11 (by norm_num), h 12 (by norm_num), h 13 (by norm_num), h 14 (by norm_num)]

/-- Number of bytes the extraction produces. -/
theorem extract_length (row : List Bool) (pos len : ℕ) :
    (bitbuffer_extract_bytes row pos len).length = (len + 7) / 8 := by
  simp [bitbuffer_extract_bytes]

/-- Concrete buffer for claim C1: all bytes zero except index 16, whose
value 0xff makes the 16-byte inverted sum equal 0x01 while the 14-byte sum
of the claim stays 0. -/
def msgC1 : List ℕ := [0, 0, 0, 0, 0, 0, 0, 0, 0, 0, 0, 0, 0, 0, 0, 0, 0xff, 0]

/-- C1: the claim's acceptance law fails on the code: msgC1 is accepted
although its 14-byte span sum (indices 2..15) is not 0x01, and clearing
byte 16 — a byte outside the claim's span — flips acceptance to rejection. -/
theorem c1_checksum_span_counterexample :
    accepts msgC1 = true ∧ specChksum14 msgC1 ≠ 1 ∧
    accepts (msgC1.set 16 0) = false ∧
    specChksum14 (msgC1.set 16 0) = specChksum14 msgC1 := by decide

/-- C1 (amended): decode accepts an extracted buffer iff the sum of
(0x100 - b) over the 16-byte span at indices 2 through 17 inclusive, masked
to 8 bits, equals 0x01; mutating any single byte in that span to a value
not satisfying the same sum flips acceptance to rejection; and bytes
outside indices 2..17 do not affect acceptance. -/
theorem c1_checksum_amended (msg : List ℕ) :
    (accepts msg = true ↔ chksum msg = 1) ∧
    (∀ i v, 2 ≤ i → i ≤ 17 → chksum (msg.set i v) ≠ 1 → accepts (msg.set i v) = false) ∧
    (∀ msg', (∀ i, 2 ≤ i → i ≤ 17 → byte msg' i = byte msg i) → accepts msg' = accepts msg) := by
  refine ⟨by rw [accepts_eq_decide]; simp, ?_, ?_⟩
  · intro i v _ _ hne
    rw [accepts_eq_decide]
    simp [hne]
  · intro msg' hagree
    have hc : chksum msg' = chksum msg := by
      unfold chksum
      rw [hagree 2 (by norm_num) (by norm_num), hagree 3 (by norm_num) (by norm_num),
        hagree 4 (by norm_num) (by norm_num), hagree 5 (by norm_num) (by norm_num),
        hagree 6 (by norm_num) (by norm_num), hagree 7 (by norm_num) (by norm_num),
        hagree 8 (by norm_num) (by norm_num), hagree 9 (by norm_num) (by norm_num),
        hagree 10 (by norm_num) (by norm_num), hagree 11 (by norm_num) (by norm_num),
        hagree 12 (by norm_num) (by norm_num), hagree 13 (by norm_num) (by norm_num),
        hagree 14 (by norm_num) (by norm_num), hagree 15 (by norm_num) (by norm_num),
        hagree 16 (by norm_num) (by norm_num), hagree 17 (by norm_num) (by norm_num)]
    rw [accepts_eq_decide, accepts_eq_decide, hc]

/-- C1 witness: mutating byte 16 of the accepted buffer msgC1 to 0 breaks
the 16-byte sum, so the amended law rejects the mutated buffer. -/
theorem c1_checksum_amended_witness : accepts (msgC1.set 16 0) = false :=
  (c1_checksum_amended msgC1).2.1 16 0 (by norm_num) (by norm_num) (by decide)

/-- The documented sample payload of the claim (source line 24), with the
preamble already stripped. -/
def fixturePayload : List ℕ :=
  [0xee, 0x93, 0x7f, 0xf7, 0xbf, 0xfb, 0xef, 0x9e, 0xfe, 0xae, 0xbf, 0xff, 0xff,
   0x11, 0x6c, 0x80, 0x08, 0x40, 0x04, 0x10, 0x61, 0x01, 0x51, 0x40, 0x00, 0x00]

/-- The transmitted preamble of source line 19: aa aa aa aa aa 2d d4. -/
def fullPreamble : List ℕ := [0xaa, 0xaa, 0xaa, 0xaa, 0xaa, 0x2d, 0xd4]

/-- The capture of claim C2: a single row holding the preamble followed by
the documented sample payload. -/
def fixtureCapture : Bitbuffer := ⟨[bytesToBits (fullPreamble ++ fixturePayload)]⟩

/-- C2: the claim fails on the code: decode of the fixture capture delivers
no record at all (so in particular no humidity-80 record), and the buffer
the payload would yield has byte 12 = 0xff, not 0x11. -/
theorem c2_fixture_counterexample :
    outputOf (bresser_6in1_callback fixtureCapture) = none ∧
    byte fixturePayload 12 ≠ 0x11 := by decide

/-- C2 (amended): the fixture row is 264 bits long, above the 230-bit shape
bound, so decode aborts early; and even taken as an extracted buffer the
payload has byte 12 = 0xff (the rain marker) and checksum 0x95 ≠ 0x01, so
the message decode would reject it with the generic failure, emitting no
measurement (hence no humidity). -/
theorem c2_fixture_amended :
    (row0 fixtureCapture).length = 264 ∧
    bresser_6in1_callback fixtureCapture = .abortEarly ∧
    byte fixturePayload 12 = 0xff ∧
    chksum fixturePayload = 0x95 ∧
    decodeMsg fixturePayload = .fail := by decide

/-- C3: taxonomy of the return signal: abort-early exactly on a bad shape;
abort-length exactly on a missed preamble or fewer than 144 remaining bits;
the generic zero failure exactly on a checksum mismatch; 1 exactly on
success, which delivers one record; every non-success path delivers none;
and the two abort codes are distinct negatives, distinct from 0 and 1. -/
theorem c3_return_taxonomy (bb : Bitbuffer) :
    (bresser_6in1_callback bb = .abortEarly ↔ shapeRejected bb) ∧
    (bresser_6in1_callback bb = .abortLength ↔
      ¬ shapeRejected bb ∧ (¬ syncFound bb ∨ postLen bb < 144)) ∧
    (bresser_6in1_callback bb = .fail ↔
      ¬ shapeRejected bb ∧ syncFound bb ∧ 144 ≤ postLen bb ∧
        chksum (extractedMsg bb) ≠ 1) ∧
    (retCode (bresser_6in1_callback bb) = 1 ↔
      ¬ shapeRejected bb ∧ syncFound bb ∧ 144 ≤ postLen bb ∧
        chksum (extractedMsg bb) = 1) ∧
    (retCode (bresser_6in1_callback bb) ≠ 1 →
      outputOf (bresser_6in1_callback bb) = none) ∧
    (∀ r, bresser_6in1_callback bb = .ok r →
      retCode (bresser_6in1_callback bb) = 1 ∧
      outputOf (bresser_6in1_callback bb) = some r) ∧
    DECODE_ABORT_EARLY < 0 ∧ DECODE_ABORT_LENGTH < 0 ∧
    DECODE_ABORT_EARLY ≠ DECODE_ABORT_LENGTH ∧
    (0 : ℤ) ≠ DECODE_ABORT_EARLY ∧ (0 : ℤ) ≠ DECODE_ABORT_LENGTH ∧
    retCode DecodeResult.fail = 0 := by
  unfold bresser_6in1_callback
  by_cases hs : shapeRejected bb
  · rw [if_pos hs]
    refine ⟨iff_of_true rfl hs, ?_, ?_, ?_, fun _ => rfl, by simp,
      by decide, by decide, by decide, by decide, by decide, by decide⟩
    · constructor
      · intro h; simp at h
      · rintro ⟨h, -⟩; exact absurd hs h
    · constructor
      · intro h; simp at h
      · rintro ⟨h, -⟩; exact absurd hs h
    · constructor
      · intro h; norm_num [retCode, DECODE_ABORT_EARLY] at h
      · rintro ⟨h, -⟩; exact absurd hs h
  · rw [if_neg hs]
    by_cases hn : syncFound bb
    · rw [if_neg (not_not.mpr hn)]
      by_cases hl : postLen bb < 144
      · rw [if_pos hl]
        have hle : ¬ 144 ≤ postLen bb := by omega
        refine ⟨?_, ?_, ?_, ?_, fun _ => rfl, by simp,
          by decide, by decide, by decide, by decide, by decide, by decide⟩
        · constructor
          · intro h; simp at h
          · intro h; exact absurd h hs
        · constructor
          · intro _; exact ⟨hs, Or.inr hl⟩
          · intro _; rfl
        · constructor
          · intro h; simp at h
          · rintro ⟨-, -, h, -⟩; exact absurd h hle
        · constructor
          · intro h; norm_num [retCode, DECODE_ABORT_LENGTH] at h
          · rintro ⟨-, -, h, -⟩; exact absurd h hle
      · rw [if_neg hl]
        have hlen : 144 ≤ postLen bb := by omega
        refine ⟨?_, ?_, ?_, ?_, ?_, ?_,
          by decide, by decide, by decide, by decide, by decide, by decide⟩
        · simp [(decodeMsg_ne_aborts (extractedMsg bb)).1, hs]
        · simp [(decodeMsg_ne_aborts (extractedMsg bb)).2, hs, hn, hl]
        · rw [decodeMsg_fail_iff]
          constructor
          · intro h; exact ⟨hs, hn, hlen, h⟩
          · rintro ⟨-, -, -, h⟩; exact h
        · rw [retCode_decodeMsg_one_iff]
          constructor
          · intro h; exact ⟨hs, hn, hlen, h⟩
          · rintro ⟨-, -, -, h⟩; exact h
        · intro h
          have hc : chksum (extractedMsg bb) ≠ 1 := by
            intro hc; exact h ((retCode_decodeMsg_one_iff _).mpr hc)
          rw [(decodeMsg_fail_iff _).mpr hc]
          rfl
        · intro r h
          rw [h]
          exact ⟨rfl, rfl⟩
    · rw [if_pos hn]
      exact ⟨by simp [hs], by simp [hs, hn], by simp [hn],
        by norm_num [retCode, DECODE_ABORT_LENGTH, hn], fun _ => rfl, by simp,
        by decide, by decide, by decide, by decide, by decide, by decide⟩

/-- Concrete empty capture used by the C3 witness. -/
def bbC3 : Bitbuffer := ⟨[]⟩

/-- C3 witness: the empty capture has a bad shape, so its return code is
not 1 and it delivers no record. -/
theorem c3_return_taxonomy_witness : outputOf (bresser_6in1_callback bbC3) = none :=
  (c3_return_taxonomy bbC3).2.2.2.2.1 (by decide)

/-- Wind gust field of a record, present in both variants. -/
def windGustOf : Record → ℚ
  | .rain x => x.wind_gust
  | .weather x => x.wind_gust

/-- Wind average-speed field of a record, present in both variants. -/
def windSpeedOf : Record → ℚ
  | .rain x => x.wind_speed
  | .weather x => x.wind_speed

/-- Wind direction field of a record, present in both variants. -/
def windDirOf : Record → ℚ
  | .rain x => x.wind_dir_deg
  | .weather x => x.wind_dir_deg

/-- C4: for every buffer whose decode succeeds, the variant is a pure
function of extracted byte 12: value 0xff yields exactly the rain record
(model, wind gust, wind average, wind direction, rainfall, integrity
marker), any other value exactly the weather record (model, temperature,
humidity, wind gust, wind average, wind direction, integrity marker). -/
theorem c4_variant_dispatch (msg : List ℕ) (r : Record) (h : decodeMsg msg = .ok r) :
    (byte msg 12 = 0xff → r = .rain (rainRecord msg)) ∧
    (byte msg 12 ≠ 0xff → r = .weather (weatherRecord msg)) := by
  rcases (decodeMsg_ok_inv h).2 with ⟨h12, hr⟩ | ⟨h12, hr⟩
  · exact ⟨fun _ => hr, fun hc => absurd h12 hc⟩
  · exact ⟨fun hc => absurd hc h12, fun _ => hr⟩

/-- Concrete buffer for the C4 witness: checksum holds via byte 12 = 0xff,
so the rain variant is selected. -/
def msgC4 : List ℕ := [0, 0, 0, 0, 0, 0, 0, 0, 0, 0, 0, 0, 0xff, 0, 0, 0, 0, 0]

/-- C4 witness: on msgC4 (byte 12 = 0xff) the delivered record is exactly
the rain record. -/
theorem c4_variant_dispatch_witness :
    Record.rain (rainRecord msgC4) = Record.rain (rainRecord msgC4) :=
  (c4_variant_dispatch msgC4 (Record.rain (rainRecord msgC4))
    (decodeMsg_ok_rain (by decide) (by decide))).1 (by decide)

/-- C5: temperature decode and sign law: for every weather record the code
emits, the raw magnitude is formed from byte 12's nibbles and byte 13's
high nibble as hundreds/tens/units of tenths of a degree, and the reported
temperature is raw/10 when that is at most 60, and raw/10 - 100 when it
exceeds 60. -/
theorem c5_temperature_sign (msg : List ℕ) (w : WeatherRecord)
    (h : decodeMsg msg = .ok (.weather w)) :
    temp_raw msg =
      hiNib (byte msg 12) * 100 + loNib (byte msg 12) * 10 + hiNib (byte msg 13) ∧
    ((temp_raw msg : ℚ) * (1/10) ≤ 60 → w.temperature_C = (temp_raw msg : ℚ) * (1/10)) ∧
    (60 < (temp_raw msg : ℚ) * (1/10) →
      w.temperature_C = (temp_raw msg : ℚ) * (1/10) - 100) := by
  have hw : w = weatherRecord msg := by
    rcases (decodeMsg_ok_inv h).2 with ⟨-, hr⟩ | ⟨-, hr⟩
    · exact absurd hr (by simp)
    · exact Record.weather.inj hr
  subst hw
  refine ⟨rfl, ?_, ?_⟩
  · intro hle
    show temperature msg = _
    unfold temperature
    rw [if_neg (not_lt.mpr hle)]
  · intro hgt
    show temperature msg = _
    unfold temperature
    rw [if_pos hgt]

/-- Concrete buffer for the C5 witness: byte 12 = 0x31 and byte 13 = 0x20
give raw magnitude 312, and byte 2 = 0xae fixes the checksum. -/
def msgC5 : List ℕ :=
  [0, 0, 0xae, 0, 0, 0, 0, 0, 0, 0, 0, 0, 0x31, 0x20, 0, 0, 0, 0]

/-- C5 witness: on msgC5 the raw magnitude is 312 (at most 600 tenths), so
the weather record reports 312/10 = 31.2 degrees. -/
theorem c5_temperature_sign_witness :
    temp_raw msgC5 = 312 ∧
    (weatherRecord msgC5).temperature_C = (temp_raw msgC5 : ℚ) * (1/10) ∧
    (temp_raw msgC5 : ℚ) * (1/10) = 156/5 :=
  ⟨by decide,
   (c5_temperature_sign msgC5 (weatherRecord msgC5)
      (decodeMsg_ok_weather (by decide) (by decide))).2.1
      (by rw [show temp_raw msgC5 = 312 by decide]; norm_num),
   by rw [show temp_raw msgC5 = 312 by decide]; norm_num⟩

/-- C6: wind decode and scaling law: for every record the code emits, the
gust raw integer is (0xff - byte 7) * 10 + (0x0f - high nibble of byte 8),
the average raw integer is (0xff - byte 9) * 10 + (0x0f - low nibble of
byte 8), both from the same byte 8, and each reported km/h value is its raw
integer times 0.36, in both variants. -/
theorem c6_wind_scaling (msg : List ℕ) (r : Record) (h : decodeMsg msg = .ok r) :
    gust_raw msg = (0xff - byte msg 7) * 10 + (0x0f - hiNib (byte msg 8)) ∧
    wind_raw msg = (0xff - byte msg 9) * 10 + (0x0f - loNib (byte msg 8)) ∧
    windGustOf r = (gust_raw msg : ℚ) * (36/100) ∧
    windSpeedOf r = (wind_raw msg : ℚ) * (36/100) := by
  have hlo : loNib (byte msg 8) < 16 := (nib_lt _ (byte_lt msg 8)).2
  have hgust : windGustOf r = wind_gust msg ∧ windSpeedOf r = wind_avg msg := by
    rcases (decodeMsg_ok_inv h).2 with ⟨-, hr⟩ | ⟨-, hr⟩ <;> subst hr <;>
      exact ⟨rfl, rfl⟩
  refine ⟨rfl, ?_, ?_, ?_⟩
  · unfold wind_raw
    omega
  · rw [hgust.1]
    unfold wind_gust
    ring
  · rw [hgust.2]
    unfold wind_avg
    ring

/-- Concrete buffer for the C6 witness: byte 7 = 0xf5 and byte 8 = 0xf0
give gust raw 100; byte 3 = 26 fixes the checksum. -/
def msgC6 : List ℕ :=
  [0, 0, 0, 26, 0, 0, 0, 0xf5, 0xf0, 0, 0, 0, 0, 0, 0, 0, 0, 0]

/-- C6 witness: on msgC6 the gust raw integer is 100 and the reported gust
is 100 * 0.36 = 36.0 km/h. -/
theorem c6_wind_scaling_witness :
    gust_raw msgC6 = 100 ∧
    windGustOf (Record.weather (weatherRecord msgC6)) = (gust_raw msgC6 : ℚ) * (36/100) ∧
    (gust_raw msgC6 : ℚ) * (36/100) = 36 :=
  ⟨by decide,
   (c6_wind_scaling msgC6 (Record.weather (weatherRecord msgC6))
      (decodeMsg_ok_weather (by decide) (by decide))).2.2.1,
   by rw [show gust_raw msgC6 = 100 by decide]; norm_num⟩

/-- C7: rainfall decode law: whenever the emitted record is the rain
variant — which happens exactly when byte 12 is 0xff — the rainfall is the
four inverted BCD digits (15 - nibble) of bytes 13 and 14, composed
most-significant-first as thousands/hundreds/tens/units of tenths of a
millimeter, times 0.1. -/
theorem c7_rainfall :
    (∀ msg x, decodeMsg msg = .ok (.rain x) →
      byte msg 12 = 0xff ∧
      x.rain_mm = (((0x0f - hiNib (byte msg 13)) * 1000 + (0x0f - loNib (byte msg 13)) * 100 +
        (0x0f - hiNib (byte msg 14)) * 10 + (0x0f - loNib (byte msg 14)) : ℕ) : ℚ) * (1/10)) ∧
    (∀ msg w, decodeMsg msg = .ok (.weather w) → byte msg 12 ≠ 0xff) := by
  constructor
  · intro msg x h
    rcases (decodeMsg_ok_inv h).2 with ⟨h12, hr⟩ | ⟨h12, hr⟩
    · have hx : x = rainRecord msg := Record.rain.inj hr
      subst hx
      refine ⟨h12, ?_⟩
      show rain msg = _
      unfold rain
      rw [if_pos h12]
      rfl
    · exact absurd hr (by simp)
  · intro msg w h
    rcases (decodeMsg_ok_inv h).2 with ⟨h12, hr⟩ | ⟨h12, hr⟩
    · exact absurd hr (by simp)
    · exact h12

/-- Concrete buffer for the C7 witness: byte 12 = 0xff selects rain, bytes
13 = 0xfe and 14 = 0xdc encode the inverted digits 0,1,2,3, and byte 3 = 38
fixes the checksum. -/
def msgC7 : List ℕ :=
  [0, 0, 0, 38, 0, 0, 0, 0, 0, 0, 0, 0, 0xff, 0xfe, 0xdc, 0, 0, 0]

/-- C7 witness: on msgC7 the four inverted digits are 0,1,2,3, the raw
value is 123 tenths and the reported rainfall is 12.3 mm. -/
theorem c7_rainfall_witness :
    rain_raw msgC7 = 123 ∧
    (rainRecord msgC7).rain_mm =
      (((0x0f - hiNib (byte msgC7 13)) * 1000 + (0x0f - loNib (byte msgC7 13)) * 100 +
        (0x0f - hiNib (byte msgC7 14)) * 10 + (0x0f - loNib (byte msgC7 14)) : ℕ) : ℚ) * (1/10) ∧
    (rain_raw msgC7 : ℚ) * (1/10) = 123/10 :=
  ⟨by decide,
   (c7_rainfall.1 msgC7 (rainRecord msgC7)
      (decodeMsg_ok_rain (by decide) (by decide))).2,
   by rw [show rain_raw msgC7 = 123 by decide]; norm_num⟩

/-- Concrete buffer for the C8 counterexample: checksum holds via
byte 14 = 0xff, which is also the humidity byte, and byte 12 = 0 selects
the weather variant. -/
def msgC8 : List ℕ := [0, 0, 0, 0, 0, 0, 0, 0, 0, 0, 0, 0, 0, 0, 0xff, 0, 0, 0]

/-- C8: the claim's 0-99 range fails on the code: msgC8 is accepted on the
weather path and its emitted humidity is 165. -/
theorem c8_humidity_counterexample :
    decodeMsg msgC8 = .ok (.weather (weatherRecord msgC8)) ∧
    (weatherRecord msgC8).humidity = 165 ∧
    ¬ (weatherRecord msgC8).humidity ≤ 99 :=
  ⟨decodeMsg_ok_weather (by decide) (by decide), by decide, by decide⟩

/-- C8 (amended): for every emitted weather record the humidity equals
(high nibble of byte 14) * 10 + (low nibble of byte 14); since each nibble
is below 16 the value is at most 165, and it lies in 0-99 whenever both
nibbles are decimal digits (at most 9). -/
theorem c8_humidity_amended (msg : List ℕ) (w : WeatherRecord)
    (h : decodeMsg msg = .ok (.weather w)) :
    w.humidity = hiNib (byte msg 14) * 10 + loNib (byte msg 14) ∧
    w.humidity ≤ 165 ∧
    (hiNib (byte msg 14) ≤ 9 → loNib (byte msg 14) ≤ 9 → w.humidity ≤ 99) := by
  have hw : w = weatherRecord msg := by
    rcases (decodeMsg_ok_inv h).2 with ⟨-, hr⟩ | ⟨-, hr⟩
    · exact absurd hr (by simp)
    · exact Record.weather.inj hr
  subst hw
  have hhi : hiNib (byte msg 14) < 16 := (nib_lt _ (byte_lt msg 14)).1
  have hlo : loNib (byte msg 14) < 16 := (nib_lt _ (byte_lt msg 14)).2
  refine ⟨?_, ?_, ?_⟩
  · show humidity msg = _
    unfold humidity
    omega
  · show humidity msg ≤ 165
    unfold humidity
    omega
  · intro h1 h2
    show humidity msg ≤ 99
    unfold humidity
    omega

/-- Concrete buffer for the C8 witness: checksum holds via byte 16 = 0xff
and byte 14 = 0 keeps both humidity nibbles in decimal range. -/
def msgC8w : List ℕ := [0, 0, 0, 0, 0, 0, 0, 0, 0, 0, 0, 0, 0, 0, 0, 0, 0xff, 0]

/-- C8 witness: on msgC8w the emitted humidity follows the nibble formula
and lies within 0-99. -/
theorem c8_humidity_amended_witness :
    (weatherRecord msgC8w).humidity =
      hiNib (byte msgC8w 14) * 10 + loNib (byte msgC8w 14) ∧
    (weatherRecord msgC8w).humidity ≤ 99 :=
  ⟨(c8_humidity_amended msgC8w (weatherRecord msgC8w)
      (decodeMsg_ok_weather (by decide) (by decide))).1,
   (c8_humidity_amended msgC8w (weatherRecord msgC8w)
      (decodeMsg_ok_weather (by decide) (by decide))).2.2 (by decide) (by decide)⟩

/-- C9: wind direction decode: for every emitted record, of either variant,
the reported direction in degrees equals (high nibble of byte 10) * 100 +
(low nibble of byte 10) * 10 + (high nibble of byte 11), with no modulo or
clamping applied: any out-of-range value is passed through unchanged. -/
theorem c9_wind_direction (msg : List ℕ) (r : Record) (h : decodeMsg msg = .ok r) :
    windDirOf r =
      ((hiNib (byte msg 10) * 100 + loNib (byte msg 10) * 10 + hiNib (byte msg 11) : ℕ) : ℚ) := by
  rcases (decodeMsg_ok_inv h).2 with ⟨-, hr⟩ | ⟨-, hr⟩ <;> subst hr <;> rfl

/-- Concrete buffer for the C9 witness: byte 10 = 0xff both fixes the
checksum and composes the out-of-range direction 1650. -/
def msgC9 : List ℕ := [0, 0, 0, 0, 0, 0, 0, 0, 0, 0, 0xff, 0, 0, 0, 0, 0, 0, 0]

/-- C9 witness: on msgC9 the composed direction is 1650, outside 0-359, and
it is emitted unchanged. -/
theorem c9_wind_direction_witness :
    hiNib (byte msgC9 10) * 100 + loNib (byte msgC9 10) * 10 + hiNib (byte msgC9 11) = 1650 ∧
    windDirOf (Record.weather (weatherRecord msgC9)) =
      ((hiNib (byte msgC9 10) * 100 + loNib (byte msgC9 10) * 10 + hiNib (byte msgC9 11) : ℕ) : ℚ) ∧
    359 < 1650 :=
  ⟨by decide,
   c9_wind_direction msgC9 (Record.weather (weatherRecord msgC9))
     (decodeMsg_ok_weather (by decide) (by decide)),
   by norm_num⟩

/-- C10: buffer-access safety: the message decode depends only on buffer
bytes at indices below 18, and under the guards (one plausible row, sync
found, at least 144 remaining bits) the extraction populates between 18 and
20 bytes, so every byte the decoder reads comes from the capture and stays
within the 20-byte buffer. -/
theorem c10_buffer_access :
    (∀ msg msg', (∀ i, i < 18 → byte msg i = byte msg' i) →
      decodeMsg msg = decodeMsg msg') ∧
    (∀ bb : Bitbuffer, ¬ shapeRejected bb → syncFound bb → 144 ≤ postLen bb →
      18 ≤ (extractedMsg bb).length ∧ (extractedMsg bb).length ≤ 20) := by
  constructor
  · exact fun msg msg' h => decodeMsg_congr h
  · intro bb _ _ hlen
    unfold extractedMsg
    rw [extract_length]
    omega

/-- Buffer for the C10 witness, 18 bytes long. -/
def msgC10a : List ℕ := List.replicate 18 0

/-- Buffer for the C10 witness: agrees with msgC10a on indices below 18 but
has a 19th byte. -/
def msgC10b : List ℕ := List.replicate 18 0 ++ [7]

/-- Capture for the C10 witness: the 32-bit preamble followed by 144 zero
bits, 176 bits in all. -/
def bbC10 : Bitbuffer := ⟨[bytesToBits preamble_pattern ++ List.replicate 144 false]⟩

/-- C10 witness: two buffers agreeing below index 18 decode identically,
and the 176-bit capture extracts exactly 18 bytes. -/
theorem c10_buffer_access_witness :
    decodeMsg msgC10a = decodeMsg msgC10b ∧
    18 ≤ (extractedMsg bbC10).length ∧ (extractedMsg bbC10).length ≤ 20 :=
  ⟨c10_buffer_access.1 msgC10a msgC10b (by decide),
   (c10_buffer_access.2 bbC10 (by decide) (by decide) (by decide)).1,
   (c10_buffer_access.2 bbC10 (by decide) (by decide) (by decide)).2⟩

end Bresser5in1
